import Mathlib

/-!
Shallow embedding of `dump.go` from go-mysqldump: a MySQL dump assembly and
serialization engine.  The database connection and the filesystem are external
collaborators; they are modelled as explicit data (a `DB` record of query
results and an association list of files).  All functions below are direct
translations of the corresponding Go functions in `dump.go`, keeping their
names and control flow.
-/

namespace Mysqldump

/-- The `table` struct of dump.go: one table's name, `SHOW CREATE TABLE`
output, and serialized `VALUES` clause. -/
structure table where
  Name : String
  SQL : String
  Values : String
deriving DecidableEq

/-- The `dump` struct of dump.go: the document handed to the template. -/
structure dump where
  DumpVersion : String
  ServerVersion : String
  Tables : List table
  CompleteTime : String
deriving DecidableEq

/-- The `version` constant of dump.go. -/
def version : String := "0.1.0"

/-- Result of running `SELECT * FROM t`: the ordered column names, the rows
(each cell is `none` for SQL NULL, `some s` for text `s`), and the error, if
any, reported by `rows.Err()` after iteration. -/
structure SelectResult where
  columns : List String
  rows : List (List (Option String))
  rowsErr : Option String
deriving DecidableEq

/-- The database connection, an opaque external capability: each query the
program can issue is modelled by its result.  A `.error e` result models a
failing query (or a scan/iteration failure folded into it). -/
structure DB where
  versionQuery : Except String String
  showTablesQuery : Except String (List String)
  showCreateQuery : String → Except String (String × String)
  selectAllQuery : String → Except String SelectResult

/-- Semantic model of Go's `strings.Join`: concatenate the elements with the
separator between consecutive elements. -/
def stringsJoin : List String → String → String
  | [], _ => ""
  | [a], _ => a
  | a :: b :: rest, sep => a ++ sep ++ stringsJoin (b :: rest) sep

/-- Modelled from the spec: the driver scan step of `rows.Scan` into a generic
text buffer (`database/sql`, external to this repository).  Per the spec,
"the source coerces SQL NULL into the empty string when scanned into a text
buffer", so a NULL cell scans to `""` and a text cell scans to itself. -/
def scanCell (c : Option String) : String := c.getD ""

/-- Line 200 of dump.go: one row's tuple,
`"('" + strings.Join(data, "','") + "')"`. -/
def encodeRowTuple (data : List String) : String :=
  "('" ++ stringsJoin data "','" ++ "')"

/-- `createTableValues` of dump.go, applied to the result of the
`SELECT * FROM name` query: propagate a query error; error when zero columns
are reported; otherwise scan every row into text buffers, encode each row as
a tuple, and join the tuples with commas (propagating `rows.Err()`). -/
def createTableValues (name : String) (res : Except String SelectResult) :
    Except String String :=
  match res with
  | .error e => .error e
  | .ok r =>
    if r.columns.length = 0 then
      .error ("No columns in table " ++ name ++ ".")
    else
      let data_text := r.rows.map (fun row => encodeRowTuple (row.map scanCell))
      match r.rowsErr with
      | some e => .error e
      | none => .ok (stringsJoin data_text ",")

/-- `createTableSQL` of dump.go, applied to the result of the
`SHOW CREATE TABLE name` query (a pair of the echoed table name and the DDL
text): propagate a query error; error when the echoed name differs from the
requested name; otherwise return the DDL. -/
def createTableSQL (name : String) (res : Except String (String × String)) :
    Except String String :=
  match res with
  | .error e => .error e
  | .ok (table_return, table_sql) =>
    if table_return ≠ name then
      .error "Returned table is not the same as requested table"
    else
      .ok table_sql

/-- `createTable` of dump.go: fetch the creation SQL, then the values clause;
either failure aborts the table's export. -/
def createTable (db : DB) (name : String) : Except String table :=
  match createTableSQL name (db.showCreateQuery name) with
  | .error e => .error e
  | .ok sql =>
    match createTableValues name (db.selectAllQuery name) with
    | .error e => .error e
    | .ok values => .ok { Name := name, SQL := sql, Values := values }

/-- `getServerVersion` of dump.go: the `SELECT version()` query. -/
def getServerVersion (db : DB) : Except String String := db.versionQuery

/-- `getTables` of dump.go: the `SHOW TABLES` query. -/
def getTables (db : DB) : Except String (List String) := db.showTablesQuery

/-- The per-table loop of `Dump` (dump.go lines 87-93): export each table in
enumeration order, aborting with the first error; on success the records are
in enumeration order. -/
def exportTables (db : DB) : List String → Except String (List table)
  | [] => .ok []
  | n :: rest =>
    match createTable db n with
    | .error e => .error e
    | .ok t =>
      match exportTables db rest with
      | .error e => .error e
      | .ok ts => .ok (t :: ts)

/-- The queries `createTable` issues against the source: always
`SHOW CREATE TABLE`, and `SELECT * FROM` only when the former step
succeeded. -/
def createTableQueries (db : DB) (name : String) : List String :=
  ("SHOW CREATE TABLE " ++ name) ::
    (match createTableSQL name (db.showCreateQuery name) with
     | .error _ => []
     | .ok _ => ["SELECT * FROM " ++ name])

/-- The queries issued by the per-table loop: each table's queries in order,
stopping after the first failing table. -/
def exportTablesQueries (db : DB) : List String → List String
  | [] => []
  | n :: rest =>
    createTableQueries db n ++
      (match createTable db n with
       | .ok _ => exportTablesQueries db rest
       | .error _ => [])

/-- The header of the `tmpl` template constant of dump.go (lines 28-33):
everything rendered before the range over tables. -/
def renderHeader (d : dump) : String :=
  "-- Go SQL Dump " ++ d.DumpVersion ++
    "\n--\n-- ------------------------------------------------------\n-- Server version\t" ++
    d.ServerVersion ++ "\n\n\n"

/-- The data section of the template (lines 41-49): rendered only when the
table's `Values` field is non-empty. -/
def renderDataSection (t : table) : String :=
  "\n--\n-- Dumping data for table " ++ t.Name ++ "\n--\n\nLOCK TABLES " ++
    t.Name ++ " WRITE;\nINSERT INTO " ++ t.Name ++ " VALUES " ++ t.Values ++
    ";\nUNLOCK TABLES;\n"

/-- The per-table body of the template's range (lines 34-49): drop statement,
creation statement, and the conditional data section. -/
def renderTable (t : table) : String :=
  "\n--\n-- Table structure for table " ++ t.Name ++
    "\n--\n\nDROP TABLE IF EXISTS " ++ t.Name ++ ";\n" ++ t.SQL ++ ";\n" ++
    (if t.Values ≠ "" then renderDataSection t else "")

/-- Rendering of the whole `tmpl` template on a `dump` document: header, the
range over the tables, and the trailing completion comment. -/
def renderDump (d : dump) : String :=
  renderHeader d ++ String.join (d.Tables.map renderTable) ++
    "\n-- Dump completed on " ++ d.CompleteTime ++ "\n"

/-- The filesystem, an external collaborator: an association list from paths
to file contents, newest entry first. -/
abbrev FS := List (String × String)

/-- Modelled from the spec: the repository's `exists` helper called at
dump.go line 59 is not under src/; per the spec the dump "must not overwrite
an existing file of the same derived name", so it reports whether a file
exists at the path. -/
def fileExists (fs : FS) (p : String) : Bool := (fs.lookup p).isSome

/-- Content of the file at a path, if it exists. -/
def fileContent (fs : FS) (p : String) : Option String := fs.lookup p

/-- `os.Create`: the file comes into existence with empty content. -/
def fsCreate (fs : FS) (p : String) : FS := (p, "") :: fs

/-- A write of the rendered document to the created file. -/
def fsWrite (fs : FS) (p : String) (content : String) : FS :=
  (p, content) :: fs

/-- Go's `path.Join(dir, name)` for the already-clean inputs this program
builds. -/
def pathJoin (dir name : String) : String := dir ++ "/" ++ name

/-- Modelled from the spec: the `Dumper` receiver of `Dump` is declared
outside src/; from its uses (`d.format`, `d.dir`, `d.db`) and the spec it
carries the destination directory and the database handle.  The
time-formatted base name (`time.Now().Format(d.format)`) is external input
and is passed to `Dump` as an argument. -/
structure Dumper where
  dir : String
  db : DB

/-- Everything observable about one `Dump` invocation: its return value, the
filesystem afterwards, and the queries issued against the source, in order. -/
structure DumpResult where
  result : Except String Unit
  fs : FS
  queries : List String

/-- `Dump` of dump.go.  `now` is the time-formatted base name derived at
entry; `completeTime` is the completion timestamp taken after the last table.
Faithful to the source's order of effects: existence check first, then file
creation, then the version query, table enumeration, per-table export, and
only then the render and the write. -/
def Dump (d : Dumper) (fs : FS) (now completeTime : String) : DumpResult :=
  let name := now
  let p := pathJoin d.dir (name ++ ".sql")
  if fileExists fs p then
    { result := .error ("Dump '" ++ name ++ "' already exists."),
      fs := fs, queries := [] }
  else
    let fs₁ := fsCreate fs p
    match getServerVersion d.db with
    | .error e =>
      { result := .error e, fs := fs₁, queries := ["SELECT version()"] }
    | .ok sv =>
      match getTables d.db with
      | .error e =>
        { result := .error e, fs := fs₁,
          queries := ["SELECT version()", "SHOW TABLES"] }
      | .ok tables =>
        match exportTables d.db tables with
        | .error e =>
          { result := .error e, fs := fs₁,
            queries := ["SELECT version()", "SHOW TABLES"] ++
              exportTablesQueries d.db tables }
        | .ok ts =>
          let data : dump :=
            { DumpVersion := version, ServerVersion := sv, Tables := ts,
              CompleteTime := completeTime }
          { result := .ok (), fs := fsWrite fs₁ p (renderDump data),
            queries := ["SELECT version()", "SHOW TABLES"] ++
              exportTablesQueries d.db tables }


/-- Witness database: two well-behaved tables. -/
def wDB : DB where
  versionQuery := .ok "5.7.0"
  showTablesQuery := .ok ["users", "logs"]
  showCreateQuery := fun n =>
    if n = "users" then .ok ("users", "CREATE TABLE users (id int, name text)")
    else if n = "logs" then .ok ("logs", "CREATE TABLE logs (msg text)")
    else .error ("no such table " ++ n)
  selectAllQuery := fun n =>
    if n = "users" then
      .ok ⟨["id", "name"], [[some "1", some "alice"], [some "2", some "bob"]], none⟩
    else if n = "logs" then .ok ⟨["msg"], [], none⟩
    else .error ("no such table " ++ n)

/-- Witness database whose show-create echo never matches the request. -/
def wBadDB : DB where
  versionQuery := .ok "5.7.0"
  showTablesQuery := .ok ["users"]
  showCreateQuery := fun n => .ok ("wrong_" ++ n, "CREATE TABLE " ++ n)
  selectAllQuery := fun _ => .ok ⟨["id"], [], none⟩

/-- Witness database where table `users` exports fine but `missing` fails. -/
def wC6DB : DB where
  versionQuery := .ok "5.7.0"
  showTablesQuery := .ok ["users", "missing"]
  showCreateQuery := fun n =>
    if n = "users" then .ok ("users", "CREATE TABLE users") else .error ("no such table " ++ n)
  selectAllQuery := fun n =>
    if n = "users" then .ok ⟨["id"], [[some "1"]], none⟩ else .error ("no such table " ++ n)

/-- Witness database whose every query fails. -/
def wFailDB : DB where
  versionQuery := .error "connection refused"
  showTablesQuery := .error "connection refused"
  showCreateQuery := fun _ => .error "connection refused"
  selectAllQuery := fun _ => .error "connection refused"

/-- Witness database with zero tables. -/
def wEmptyDB : DB where
  versionQuery := .ok "5.7.0"
  showTablesQuery := .ok []
  showCreateQuery := fun n => .error ("no such table " ++ n)
  selectAllQuery := fun n => .error ("no such table " ++ n)

def wFS : FS := [("backups/2026-10-11.sql", "old dump")]

def wEmptyFS : FS := []

def wDumper : Dumper := { dir := "backups", db := wDB }

def wBadDumper : Dumper := { dir := "backups", db := wBadDB }

def wC6Dumper : Dumper := { dir := "backups", db := wC6DB }

def wFailDumper : Dumper := { dir := "backups", db := wFailDB }

def wEmptyDumper : Dumper := { dir := "backups", db := wEmptyDB }

end Mysqldump

namespace Mysqldump

theorem stringsJoin_map_wrap (l : List String) (h : l ≠ []) :
    stringsJoin (l.map (fun v => "'" ++ v ++ "'")) "," =
      "'" ++ stringsJoin l "','" ++ "'" := by
  induction l with
  | nil => exact absurd rfl h
  | cons a rest ih =>
    cases rest with
    | nil => simp [stringsJoin]
    | cons b rest' =>
      simp only [List.map_cons, stringsJoin] at ih ⊢
      rw [ih (by simp)]
      apply String.ext
      simp [String.data_append]

theorem encodeRowTuple_eq_quoted (data : List String) (h : data ≠ []) :
    encodeRowTuple data =
      "(" ++ stringsJoin (data.map (fun v => "'" ++ v ++ "'")) "," ++ ")" := by
  rw [stringsJoin_map_wrap data h, encodeRowTuple]
  apply String.ext
  simp [String.data_append]

theorem exportTables_first_error (db : DB) (ok : List String) (bad : String)
    (rest : List String) (e : String)
    (hok : ∀ n ∈ ok, ∃ t, createTable db n = .ok t)
    (hbad : createTable db bad = .error e) :
    exportTables db (ok ++ bad :: rest) = .error e := by
  induction ok with
  | nil => simp [exportTables, hbad]
  | cons a ok' ih =>
    obtain ⟨t, ht⟩ := hok a (by simp)
    have ih' := ih (fun n hn => hok n (by simp [hn]))
    simp [exportTables, ht, ih']

theorem fileExists_fsCreate (fs : FS) (p : String) :
    fileExists (fsCreate fs p) p = true := by
  simp [fileExists, fsCreate, List.lookup]

theorem fileContent_fsCreate (fs : FS) (p : String) :
    fileContent (fsCreate fs p) p = some "" := by
  simp [fileContent, fsCreate, List.lookup]

theorem fileContent_fsWrite (fs : FS) (p c : String) :
    fileContent (fsWrite fs p c) p = some c := by
  simp [fileContent, fsWrite, List.lookup]

/-- C1: For every column value scanned from the source, a SQL NULL and an
empty string are encoded identically: the values clause is unchanged when
every NULL cell is replaced by an empty-string cell (both scan to `\"\"` and
hence render as `''`), and a row containing a NULL value is materialized
successfully (the result is `.ok`), not an error. -/
theorem null_and_empty_encode_identically (name : String) (r : SelectResult)
    (hcols : r.columns.length ≠ 0) (herr : r.rowsErr = none) :
    createTableValues name (.ok r) =
      createTableValues name (.ok { r with
        rows := r.rows.map (fun row => row.map (fun c => some (scanCell c))) })
    ∧ ∃ s, createTableValues name (.ok r) = .ok s := by
  constructor
  · have hrows : (r.rows.map (fun row => row.map (fun c => some (scanCell c)))).map
        (fun row => encodeRowTuple (row.map scanCell)) =
        r.rows.map (fun row => encodeRowTuple (row.map scanCell)) := by
      simp only [List.map_map]
      apply List.map_congr_left
      intro row _
      simp only [Function.comp_def, List.map_map, Option.getD_some]
      rfl
    simp only [createTableValues, herr, hcols, if_neg hcols]
    rw [hrows]
  · simp [createTableValues, herr, hcols]

/-- C2: The encoded tuple for a row with values `v1..vn` is exactly
`('v1','v2',...,'vn')`: each value is wrapped in single quotes and inserted
verbatim, with no escaping of embedded quotes, backslashes, or control
characters (the theorem holds for every `data`, including values containing
such characters). -/
theorem tuple_is_verbatim_quoted (data : List String) (h : data ≠ []) :
    encodeRowTuple data =
      "(" ++ stringsJoin (data.map (fun v => "'" ++ v ++ "'")) "," ++ ")" :=
  encodeRowTuple_eq_quoted data h

/-- C4: Row materialization fails with the \"no columns\" error exactly when
the source reports zero columns for the table's `SELECT *` result; a table
that has columns but zero rows is not an error and yields an empty values
clause. -/
theorem no_columns_iff_error (name : String) (r : SelectResult)
    (he : r.rowsErr = none) :
    (createTableValues name (.ok r) =
        .error ("No columns in table " ++ name ++ ".") ↔ r.columns = [])
    ∧ (r.columns ≠ [] → r.rows = [] →
        createTableValues name (.ok r) = .ok "") := by
  constructor
  · constructor
    · intro hcv
      by_contra hc
      have hlen : r.columns.length ≠ 0 := by
        simpa [List.length_eq_zero] using hc
      simp [createTableValues, he, hlen] at hcv
    · intro hc
      simp [createTableValues, hc]
  · intro hc hr
    have hlen : r.columns.length ≠ 0 := by
      simpa [List.length_eq_zero] using hc
    simp [createTableValues, he, hr, hlen, stringsJoin]

end Mysqldump

namespace Mysqldump

/-- C7: For a table whose row scan returns zero rows, the materialized
values clause is the empty string, and the renderer emits only the structure
section (comment, DROP and CREATE statements) for a table with empty
`Values`, omitting the entire data section (lock, INSERT, unlock). -/
theorem empty_table_renders_schema_only (name : String) (r : SelectResult)
    (hc : r.columns.length ≠ 0) (he : r.rowsErr = none) (hr : r.rows = [])
    (t : table) (hv : t.Values = "") :
    createTableValues name (.ok r) = .ok "" ∧
    renderTable t = "\n--\n-- Table structure for table " ++ t.Name ++
      "\n--\n\nDROP TABLE IF EXISTS " ++ t.Name ++ ";\n" ++ t.SQL ++ ";\n" := by
  constructor
  · simp [createTableValues, he, hr, hc, stringsJoin]
  · simp [renderTable, hv]

/-- C3: When the derived destination path already exists, `Dump` fails with
the \"already exists\" error, leaves the filesystem untouched (no file created
or written), and issues no query against the source: the existence check
precedes all other I/O. -/
theorem collision_preflight (d : Dumper) (fs : FS) (now ct : String)
    (h : fileExists fs (pathJoin d.dir (now ++ ".sql")) = true) :
    (Dump d fs now ct).result = .error ("Dump '" ++ now ++ "' already exists.")
    ∧ (Dump d fs now ct).fs = fs ∧ (Dump d fs now ct).queries = [] := by
  simp [Dump, h]

/-- C5: If the name echoed by the source's `SHOW CREATE TABLE` query differs
from the requested name, the table's export fails with the \"unexpected
table\" error, and no record list containing that table is ever produced by
the export loop (so no TableRecord for it reaches the document). -/
theorem mismatch_fails_no_record (db : DB) (name echo sql : String)
    (hne : echo ≠ name) (hshow : db.showCreateQuery name = .ok (echo, sql)) :
    createTable db name =
      .error "Returned table is not the same as requested table"
    ∧ ∀ (names : List String) (ts : List table),
        name ∈ names → exportTables db names ≠ .ok ts := by
  have hct : createTable db name =
      .error "Returned table is not the same as requested table" := by
    simp [createTable, createTableSQL, hshow, hne]
  refine ⟨hct, ?_⟩
  intro names
  induction names with
  | nil => intro ts h; simp at h
  | cons a rest ih =>
    intro ts hmem
    rcases List.mem_cons.mp hmem with rfl | hmem'
    · simp [exportTables, hct]
    · cases hca : createTable db a with
      | error e => simp [exportTables, hca]
      | ok t =>
        cases hrest : exportTables db rest with
        | error e => simp [exportTables, hca, hrest]
        | ok ts' => exact fun hok => ih ts' hmem' hrest


/-- C6: Per-table export is all-or-nothing: when every table before `bad`
exports successfully and `bad` fails, `Dump` returns exactly `bad`'s error,
and the destination file still has empty content — no table records and no
completion stamp were written (the completion time is stamped only on the
all-tables-succeeded path). -/
theorem first_table_failure_aborts_dump (d : Dumper) (fs : FS)
    (now ct sv : String) (ok : List String) (bad : String)
    (rest : List String) (e : String)
    (hne : fileExists fs (pathJoin d.dir (now ++ ".sql")) = false)
    (hsv : getServerVersion d.db = .ok sv)
    (htab : getTables d.db = .ok (ok ++ bad :: rest))
    (hok : ∀ n ∈ ok, ∃ t, createTable d.db n = .ok t)
    (hbad : createTable d.db bad = .error e) :
    (Dump d fs now ct).result = .error e ∧
    fileContent (Dump d fs now ct).fs (pathJoin d.dir (now ++ ".sql")) =
      some "" := by
  have hexp := exportTables_first_error d.db ok bad rest e hok hbad
  constructor
  · simp [Dump, hne, hsv, htab, hexp]
  · simp [Dump, hne, hsv, htab, hexp, fileContent_fsCreate]

/-- C8: For every table result, the materialized values clause is the
comma-join of exactly one tuple per source row (the tuple list has the same
length as the row list), and within each tuple the quoted literals appear in
the same order as the source reports the columns (the i-th tuple is built by
mapping the quote-wrapper over the i-th row in order). -/
theorem one_tuple_per_row_in_order (name : String) (r : SelectResult)
    (hc : r.columns.length ≠ 0) (he : r.rowsErr = none)
    (hlen : ∀ row ∈ r.rows, row.length = r.columns.length) :
    createTableValues name (.ok r) =
      .ok (stringsJoin (r.rows.map (fun row =>
        "(" ++ stringsJoin (row.map (fun c => "'" ++ scanCell c ++ "'")) "," ++ ")")) ",")
    ∧ (r.rows.map (fun row =>
        "(" ++ stringsJoin (row.map (fun c => "'" ++ scanCell c ++ "'")) "," ++ ")")).length
      = r.rows.length := by
  constructor
  · have hmap : r.rows.map (fun row => encodeRowTuple (row.map scanCell)) =
        r.rows.map (fun row =>
          "(" ++ stringsJoin (row.map (fun c => "'" ++ scanCell c ++ "'")) "," ++ ")") := by
      apply List.map_congr_left
      intro row hrow
      have hne' : row.map scanCell ≠ [] := by
        have := hlen row hrow
        intro hnil
        rw [List.map_eq_nil_iff] at hnil
        subst hnil
        simp at this
        exact hc this.symm
      rw [encodeRowTuple_eq_quoted (row.map scanCell) hne', List.map_map]
      rfl
    simp only [createTableValues, he, if_neg hc]
    rw [hmap]
  · exact List.length_map _ _

/-- C9: Nothing is written to the sink until the whole document is
assembled: when the destination is fresh but a later pre-render step fails
(server-version query, table enumeration, or a table's export), `Dump`
returns an error, the destination file exists with empty content, it is not
removed, and a retry with the same output identity fails with the
\"already exists\" error. -/
theorem write_only_after_assembly (d : Dumper) (fs : FS) (now ct : String)
    (hne : fileExists fs (pathJoin d.dir (now ++ ".sql")) = false)
    (hfail : (∃ e, getServerVersion d.db = .error e) ∨
             (∃ e, getTables d.db = .error e) ∨
             (∃ ts e, getTables d.db = .ok ts ∧ exportTables d.db ts = .error e)) :
    (∃ e, (Dump d fs now ct).result = .error e) ∧
    fileContent (Dump d fs now ct).fs (pathJoin d.dir (now ++ ".sql")) = some ""
    ∧ (Dump d (Dump d fs now ct).fs now ct).result =
        .error ("Dump '" ++ now ++ "' already exists.") := by
  have hretry : ∀ fs' : FS, fileExists fs' (pathJoin d.dir (now ++ ".sql")) = true →
      (Dump d fs' now ct).result = .error ("Dump '" ++ now ++ "' already exists.") := by
    intro fs' h
    simp [Dump, h]
  cases hsv : getServerVersion d.db with
  | error esv =>
    refine ⟨⟨esv, ?_⟩, ?_, ?_⟩
    · simp [Dump, hne, hsv]
    · simp [Dump, hne, hsv, fileContent_fsCreate]
    · apply hretry
      simp [Dump, hne, hsv, fileExists_fsCreate]
  | ok sv =>
    cases htab : getTables d.db with
    | error et =>
      refine ⟨⟨et, ?_⟩, ?_, ?_⟩
      · simp [Dump, hne, hsv, htab]
      · simp [Dump, hne, hsv, htab, fileContent_fsCreate]
      · apply hretry
        simp [Dump, hne, hsv, htab, fileExists_fsCreate]
    | ok ts =>
      have hexp : ∃ e, exportTables d.db ts = .error e := by
        rcases hfail with ⟨e, h⟩ | ⟨e, h⟩ | ⟨ts', e, h1, h2⟩
        · rw [hsv] at h; exact absurd h (by simp)
        · rw [htab] at h; exact absurd h (by simp)
        · rw [htab] at h1
          obtain rfl : ts' = ts := by
            injection h1 with h1'
            exact h1'.symm
          exact ⟨e, h2⟩
      obtain ⟨e, hexp⟩ := hexp
      refine ⟨⟨e, ?_⟩, ?_, ?_⟩
      · simp [Dump, hne, hsv, htab, hexp]
      · simp [Dump, hne, hsv, htab, hexp, fileContent_fsCreate]
      · apply hretry
        simp [Dump, hne, hsv, htab, hexp, fileExists_fsCreate]

/-- C10: A source with zero tables is a successful dump: `Dump` returns no
error and the rendered output is exactly the header block (tool version,
server version) followed by the trailing completion-time comment, with no
DROP, CREATE, or data sections. -/
theorem zero_tables_header_only (d : Dumper) (fs : FS) (now ct sv : String)
    (hne : fileExists fs (pathJoin d.dir (now ++ ".sql")) = false)
    (hsv : getServerVersion d.db = .ok sv)
    (htab : getTables d.db = .ok []) :
    (Dump d fs now ct).result = .ok () ∧
    fileContent (Dump d fs now ct).fs (pathJoin d.dir (now ++ ".sql")) =
      some ("-- Go SQL Dump 0.1.0\n--\n-- ------------------------------------------------------\n-- Server version\t"
        ++ sv ++ "\n\n\n" ++ "\n-- Dump completed on " ++ ct ++ "\n") := by
  have hcontent : renderDump
      { DumpVersion := version, ServerVersion := sv, Tables := [],
        CompleteTime := ct } =
      "-- Go SQL Dump 0.1.0\n--\n-- ------------------------------------------------------\n-- Server version\t"
        ++ sv ++ "\n\n\n" ++ "\n-- Dump completed on " ++ ct ++ "\n" := by
    apply String.ext
    simp [renderDump, renderHeader, version, String.join, String.data_append]
  constructor
  · simp [Dump, hne, hsv, htab, exportTables]
  · simp [Dump, hne, hsv, htab, exportTables, fileContent_fsWrite, hcontent]



/-- Witness for C1 at a one-column, one-row table whose cell is NULL. -/
theorem null_and_empty_encode_identically_witness :
    createTableValues "t" (.ok ⟨["a"], [[none]], none⟩) =
      createTableValues "t" (.ok ⟨["a"], [[some ""]], none⟩)
    ∧ ∃ s, createTableValues "t" (.ok ⟨["a"], [[none]], none⟩) = .ok s :=
  null_and_empty_encode_identically "t" ⟨["a"], [[none]], none⟩ (by decide) rfl

/-- Witness for C2 at a row containing an embedded single quote. -/
theorem tuple_is_verbatim_quoted_witness :
    encodeRowTuple ["a", "O'Brien"] =
      "(" ++ stringsJoin (["a", "O'Brien"].map (fun v => "'" ++ v ++ "'")) "," ++ ")" :=
  tuple_is_verbatim_quoted ["a", "O'Brien"] (by decide)

/-- Witness for C3 at a filesystem already holding the destination file. -/
theorem collision_preflight_witness :
    (Dump wDumper wFS "2026-10-11" "ct").result =
      .error ("Dump '" ++ "2026-10-11" ++ "' already exists.")
    ∧ (Dump wDumper wFS "2026-10-11" "ct").fs = wFS
    ∧ (Dump wDumper wFS "2026-10-11" "ct").queries = [] :=
  collision_preflight wDumper wFS "2026-10-11" "ct" rfl

/-- Witness for C4 at a one-column, zero-row result. -/
theorem no_columns_iff_error_witness :
    (createTableValues "t" (.ok ⟨["a"], [], none⟩) =
        .error ("No columns in table " ++ "t" ++ ".") ↔ (["a"] : List String) = [])
    ∧ ((["a"] : List String) ≠ [] → ([] : List (List (Option String))) = [] →
        createTableValues "t" (.ok ⟨["a"], [], none⟩) = .ok "") :=
  no_columns_iff_error "t" ⟨["a"], [], none⟩ rfl

/-- Witness for C5 at a database echoing a wrong table name. -/
theorem mismatch_fails_no_record_witness :
    createTable wBadDB "users" =
      .error "Returned table is not the same as requested table"
    ∧ ∀ (names : List String) (ts : List table),
        "users" ∈ names → exportTables wBadDB names ≠ .ok ts :=
  mismatch_fails_no_record wBadDB "users" "wrong_users" "CREATE TABLE users"
    (by decide) rfl

/-- Witness for C6 at a run whose second table fails to export. -/
theorem first_table_failure_aborts_dump_witness :
    (Dump wC6Dumper wEmptyFS "2026-10-11" "ct").result =
      .error ("no such table " ++ "missing")
    ∧ fileContent (Dump wC6Dumper wEmptyFS "2026-10-11" "ct").fs
        (pathJoin wC6Dumper.dir ("2026-10-11" ++ ".sql")) = some "" :=
  first_table_failure_aborts_dump wC6Dumper wEmptyFS "2026-10-11" "ct" "5.7.0"
    ["users"] "missing" [] ("no such table " ++ "missing") rfl rfl rfl
    (by
      intro n hn
      rw [List.mem_singleton] at hn
      subst hn
      exact ⟨_, rfl⟩)
    rfl

/-- Witness for C7 at a zero-row table. -/
theorem empty_table_renders_schema_only_witness :
    createTableValues "logs" (.ok ⟨["msg"], [], none⟩) = .ok "" ∧
    renderTable ⟨"logs", "CREATE TABLE logs", ""⟩ =
      "\n--\n-- Table structure for table " ++ "logs" ++
        "\n--\n\nDROP TABLE IF EXISTS " ++ "logs" ++ ";\n" ++
        "CREATE TABLE logs" ++ ";\n" :=
  empty_table_renders_schema_only "logs" ⟨["msg"], [], none⟩ (by decide) rfl rfl
    ⟨"logs", "CREATE TABLE logs", ""⟩ rfl

/-- Witness for C8 at a two-column, two-row table with one NULL cell. -/
theorem one_tuple_per_row_in_order_witness :
    createTableValues "users"
        (.ok ⟨["id", "name"], [[some "1", some "alice"], [some "2", none]], none⟩) =
      .ok (stringsJoin
        (([[some "1", some "alice"], [some "2", none]] :
            List (List (Option String))).map (fun row =>
          "(" ++ stringsJoin (row.map (fun c => "'" ++ scanCell c ++ "'")) "," ++ ")")) ",")
    ∧ (([[some "1", some "alice"], [some "2", none]] :
          List (List (Option String))).map (fun row =>
        "(" ++ stringsJoin (row.map (fun c => "'" ++ scanCell c ++ "'")) "," ++ ")")).length
      = ([[some "1", some "alice"], [some "2", none]] :
          List (List (Option String))).length :=
  one_tuple_per_row_in_order "users"
    ⟨["id", "name"], [[some "1", some "alice"], [some "2", none]], none⟩
    (by decide) rfl (by decide)

/-- Witness for C9 at a run whose version query fails. -/
theorem write_only_after_assembly_witness :
    (∃ e, (Dump wFailDumper wEmptyFS "2026-10-11" "ct").result = .error e) ∧
    fileContent (Dump wFailDumper wEmptyFS "2026-10-11" "ct").fs
      (pathJoin wFailDumper.dir ("2026-10-11" ++ ".sql")) = some ""
    ∧ (Dump wFailDumper (Dump wFailDumper wEmptyFS "2026-10-11" "ct").fs
          "2026-10-11" "ct").result =
        .error ("Dump '" ++ "2026-10-11" ++ "' already exists.") :=
  write_only_after_assembly wFailDumper wEmptyFS "2026-10-11" "ct" rfl
    (Or.inl ⟨"connection refused", rfl⟩)

/-- Witness for C10 at a database with zero tables. -/
theorem zero_tables_header_only_witness :
    (Dump wEmptyDumper wEmptyFS "2026-10-11" "ct").result = .ok () ∧
    fileContent (Dump wEmptyDumper wEmptyFS "2026-10-11" "ct").fs
      (pathJoin wEmptyDumper.dir ("2026-10-11" ++ ".sql")) =
      some ("-- Go SQL Dump 0.1.0\n--\n-- ------------------------------------------------------\n-- Server version\t"
        ++ "5.7.0" ++ "\n\n\n" ++ "\n-- Dump completed on " ++ "ct" ++ "\n") :=
  zero_tables_header_only wEmptyDumper wEmptyFS "2026-10-11" "ct" "5.7.0" rfl rfl rfl

end Mysqldump
